import Mathlib

/-!
Verification of the SlideViewer client-side synchronization and caching core.

The definitions below are a shallow embedding of the repository's code:

* the IndexedDB slide cache (`cacheSlide`, `getCachedSlide`, `isSlideCached`,
  `clearPresentationCache`, `clearAllCache`) from `src/lib/cache.ts`;
* the viewer's connection state machine (push subscription with watchdog,
  exponential-backoff reconnects, and the 1-second polling fallback) from
  `ViewerPage`;
* the preload scheduler's priority-window computation (`lazyLoadRange`,
  the `startIdx`/`endIdx` loop over the slide manifest) from `ViewerPage`.

Network fetches, `Date.now()` and IndexedDB transactions are modelled by
explicit parameters (fetch results as `Option a`, the clock as an argument,
the store as a list of entries keyed by `(presentationId, slideNumber)`).
-/

namespace SlideViewer

/-- Image bytes: a `Blob` is modelled as its byte contents. -/
abbrev Blob := List Nat

/-- An entry of the `slides` object store, keyPath `[presentationId, slideNumber]`.
`cachedAt` is an integer timestamp (`Date.now()`). -/
structure CachedSlide where
  presentationId : String
  slideNumber : Nat
  imageUrl : String
  thumbnailUrl : Option String
  imageBlob : Blob
  thumbnailBlob : Option Blob
  cachedAt : Int
deriving DecidableEq, Repr

/-- The object store: a list of entries with the compound key
`(presentationId, slideNumber)` acting as primary key (a `put` replaces). -/
abbrev CacheStore := List CachedSlide

/-- Key match on the compound keyPath `[presentationId, slideNumber]`. -/
def keyMatch (e : CachedSlide) (presentationId : String) (slideNumber : Nat) : Bool :=
  e.presentationId == presentationId && e.slideNumber == slideNumber

/-- `store.get([presentationId, slideNumber])`: primary-key lookup. -/
def getEntry (st : CacheStore) (presentationId : String) (slideNumber : Nat) :
    Option CachedSlide :=
  st.find? (fun e => keyMatch e presentationId slideNumber)

/-- `store.put(entry)`: insert-or-replace by primary key. -/
def putEntry (st : CacheStore) (e : CachedSlide) : CacheStore :=
  e :: st.filter (fun x => !(keyMatch x e.presentationId e.slideNumber))

/-- Observable steps of `cacheSlide`, in execution order: the network fetches,
the opening of the `readwrite` transaction, and the `store.put`. -/
inductive CacheOp
  | fetchBytes
  | openTxn
  | writeEntry
deriving DecidableEq, Repr

/-- `cacheSlide(presentationId, slideNumber, imageUrl, thumbnailUrl)`.

The two network fetches are modelled by their results: `fetchImage = none`
means `urlToBlob(imageUrl)` threw, `fetchThumb = none` means the thumbnail
fetch threw (the code turns that into `null` via `.catch(() => null)`).
When no `thumbnailUrl` is given no thumbnail fetch is attempted and
`thumbnailBlob` is `null`.

Returns the new store, a success flag (the code resolves either way — a
failed image fetch is caught, logged and swallowed), and the trace of
observable steps actually executed. -/
def cacheSlide (st : CacheStore) (presentationId : String) (slideNumber : Nat)
    (imageUrl : String) (thumbnailUrl : Option String)
    (fetchImage : Option Blob) (fetchThumb : Option Blob) (now : Int) :
    CacheStore × Bool × List CacheOp :=
  match fetchImage with
  | none => (st, false, [CacheOp.fetchBytes])
  | some img =>
      let entry : CachedSlide :=
        { presentationId := presentationId
          slideNumber := slideNumber
          imageUrl := imageUrl
          thumbnailUrl := thumbnailUrl
          imageBlob := img
          thumbnailBlob := match thumbnailUrl with
            | some _ => fetchThumb
            | none => none
          cachedAt := now }
      (putEntry st entry, true, [CacheOp.fetchBytes, CacheOp.openTxn, CacheOp.writeEntry])

/-- `getCachedSlide(presentationId, slideNumber, preferThumbnail)`: returns the
thumbnail blob only when `preferThumbnail` is set and a thumbnail blob was
stored, else the full image blob; `none` when no entry exists. -/
def getCachedSlide (st : CacheStore) (presentationId : String) (slideNumber : Nat)
    (preferThumbnail : Bool) : Option Blob :=
  match getEntry st presentationId slideNumber with
  | none => none
  | some e =>
      some (match preferThumbnail, e.thumbnailBlob with
        | true, some t => t
        | _, _ => e.imageBlob)

/-- `isSlideCached(presentationId, slideNumber)`. -/
def isSlideCached (st : CacheStore) (presentationId : String) (slideNumber : Nat) : Bool :=
  (getEntry st presentationId slideNumber).isSome

/-- `clearPresentationCache(presentationId)`: cursor over the
`presentationId` index deleting every matching entry. -/
def clearPresentationCache (st : CacheStore) (presentationId : String) : CacheStore :=
  st.filter (fun e => !(e.presentationId == presentationId))

/-- `clearAllCache(maxAge)`: cursor over the `cachedAt` index restricted to
`IDBKeyRange.upperBound(cutoff)` with `cutoff = now - maxAge`, deleting every
entry it yields.  `upperBound` is inclusive, so exactly the entries with
`cachedAt ≤ cutoff` are deleted. -/
def clearAllCache (st : CacheStore) (now maxAge : Int) : CacheStore :=
  let cutoff := now - maxAge
  st.filter (fun e => !(decide (e.cachedAt ≤ cutoff)))

/-! ### Connection manager (ViewerPage realtime subscription) -/

/-- The `connectionStatus` React state:
`'connecting' | 'connected' | 'disconnected' | 'polling'`. -/
inductive ConnStatus
  | connecting
  | connected
  | disconnected
  | polling
deriving DecidableEq, Repr

/-- The connection manager's mutable state: `connectionStatus`,
`reconnectAttemptsRef`, whether `pollingIntervalRef` holds a live interval,
whether `connectionTimeoutRef`'s 5s watchdog is still pending, and whether
the push channel is currently subscribed and delivering updates. -/
structure ConnState where
  status : ConnStatus
  reconnectAttempts : Nat
  pollingActive : Bool
  watchdogPending : Bool
  pushActive : Bool
deriving DecidableEq, Repr

/-- State right after the subscribe effect runs: status `connecting`,
zero reconnect attempts, no polling, the 5-second watchdog armed,
push not yet confirmed. -/
def initConnState : ConnState :=
  { status := .connecting
    reconnectAttempts := 0
    pollingActive := false
    watchdogPending := true
    pushActive := false }

/-- `startPolling`: early-returns if `pollingIntervalRef.current` is set;
otherwise sets `connectionStatus` to `'polling'` and starts the 1-second
interval. -/
def startPolling (s : ConnState) : ConnState :=
  if s.pollingActive then s
  else { s with pollingActive := true, status := .polling }

/-- `stopPolling`: clears the interval if one is running. -/
def stopPolling (s : ConnState) : ConnState :=
  { s with pollingActive := false }

/-- Events driving the connection manager: the channel status callback's
`SUBSCRIBED` and failure (`CHANNEL_ERROR`/`CLOSED`/`TIMED_OUT`, treated
identically) branches, the 5s watchdog firing, the backoff timer firing
(`setConnectionStatus('connecting'); updateChannel.subscribe()`), and a
poll tick (which touches only the snapshot, not the connection state). -/
inductive ConnEvent
  | subscribed
  | channelFailure
  | watchdogFire
  | reconnectFire
  | pollTick
deriving DecidableEq, Repr

/-- One step of the connection manager.  Returns the next state and, when the
failure branch schedules a backoff reconnect, the scheduled delay in ms
(`Math.min(500 * Math.pow(2, attempts - 1), 2000)`). -/
def connStep (s : ConnState) : ConnEvent → ConnState × Option Nat
  | .subscribed =>
      (stopPolling { s with
          watchdogPending := false
          status := .connected
          reconnectAttempts := 0
          pushActive := true }, none)
  | .channelFailure =>
      let a := s.reconnectAttempts + 1
      let s1 := { s with status := .disconnected, reconnectAttempts := a, pushActive := false }
      if a ≥ 3 then (startPolling s1, none)
      else (s1, some (min (500 * 2 ^ (a - 1)) 2000))
  | .watchdogFire =>
      if s.watchdogPending then (startPolling { s with watchdogPending := false }, none)
      else (s, none)
  | .reconnectFire => ({ s with status := .connecting }, none)
  | .pollTick => (s, none)

/-- Run a sequence of events, collecting every scheduled backoff delay in
order. -/
def runConn (s : ConnState) : List ConnEvent → ConnState × List Nat
  | [] => (s, [])
  | e :: es =>
      let p := connStep s e
      let q := runConn p.1 es
      (q.1, p.2.toList ++ q.2)

/-! ### Viewer snapshot updates (polling loop and visibility handler) -/

/-- The remote row projection `{current_slide_index, is_live}` consumed by
polls, push events and the visibility refetch. -/
structure Snapshot where
  current_slide_index : Nat
  is_live : Bool
deriving DecidableEq, Repr

/-- The viewer state touched by snapshot deliveries. -/
structure ViewerState where
  currentSlideIndex : Nat
  hasEnded : Bool
  connectionStatus : ConnStatus
deriving DecidableEq, Repr

/-- One tick of the polling loop's `poll` body applied to its fetch result:
on success it stores `current_slide_index` and marks the session ended when
`is_live` is false; a failed fetch is logged and changes nothing. -/
def applyPoll (v : ViewerState) (fetched : Option Snapshot) : ViewerState :=
  match fetched with
  | none => v
  | some d =>
      { v with
          currentSlideIndex := d.current_slide_index
          hasEnded := v.hasEnded || !d.is_live }

/-- The time of the k-th tick of the polling loop started at `start`:
`poll()` runs immediately, then `setInterval(poll, 1000)` fires every
1000 ms. -/
def pollTickTime (start k : Nat) : Nat :=
  start + 1000 * k

/-- `handleVisibilityChange`: when the document becomes visible, one refetch
of `{current_slide_index, is_live}` is issued; on success the slide index is
stored and `hasEnded` set if the session is over; a failed fetch changes
nothing.  Returns the new viewer state and the number of refetches
performed. -/
def handleVisibilityChange (v : ViewerState) (visible : Bool)
    (fetched : Option Snapshot) : ViewerState × Nat :=
  if visible then
    match fetched with
    | some d =>
        ({ v with
            currentSlideIndex := d.current_slide_index
            hasEnded := v.hasEnded || !d.is_live }, 1)
    | none => (v, 1)
  else (v, 0)

/-! ### Preload scheduler (lazy-loading priority window) -/

/-- The `useConnectionQuality` estimate. -/
inductive ConnectionQuality
  | fast
  | slow
  | unknown
deriving DecidableEq, Repr

/-- `lazyLoadRange`: `connectionQuality === 'fast' ? 5 :
connectionQuality === 'slow' ? 2 : 3`. -/
def lazyLoadRange : ConnectionQuality → Nat
  | .fast => 5
  | .slow => 2
  | .unknown => 3

/-- `loadedSlides.findIndex(s => s.slide_number === currentIndex)`:
the array index of the current slide, `-1` when absent.  The manifest is
modelled by its ordered list of slide numbers. -/
def findSlideIdx (slides : List Nat) (currentIndex : Nat) : Int :=
  match slides.findIdx? (fun s => s == currentIndex) with
  | some i => (i : Int)
  | none => -1

/-- The integers from `lo` to `hi` inclusive (empty when `hi < lo`):
the values taken by `i` in `for (let i = startIdx; i <= endIdx; i++)`. -/
def intRange (lo hi : Int) : List Int :=
  (List.range (hi + 1 - lo).toNat).map (fun k => lo + Int.ofNat k)

/-- The `priorityIndices` loop:
`startIdx = Math.max(0, currentSlideIndexInArray - lazyLoadRange)`,
`endIdx = Math.min(loadedSlides.length - 1, currentSlideIndexInArray + lazyLoadRange)`,
collecting every array index from `startIdx` to `endIdx`. -/
def priorityIndices (len : Nat) (idxInArray : Int) (range : Nat) : List Int :=
  intRange (max 0 (idxInArray - (range : Int)))
    (min ((len : Int) - 1) (idxInArray + (range : Int)))

/-- The priority window as slide numbers: the slide numbers of the manifest
entries at the computed priority indices. -/
def priorityWindow (slides : List Nat) (currentIndex : Nat)
    (q : ConnectionQuality) : List Nat :=
  (priorityIndices slides.length (findSlideIdx slides currentIndex)
      (lazyLoadRange q)).filterMap (fun i => slides.get? i.toNat)

/-! ### Helper lemmas for the cache store -/

theorem keyMatch_self (st : CacheStore) (e : CachedSlide) :
    getEntry (putEntry st e) e.presentationId e.slideNumber = some e := by
  simp [getEntry, putEntry, List.find?_cons, keyMatch]

theorem find?_filter_of_imp {α : Type} (l : List α) (p f : α → Bool)
    (h : ∀ e, p e = true → f e = true) :
    (l.filter f).find? p = l.find? p := by
  induction l with
  | nil => rfl
  | cons a t ih =>
    by_cases hf : f a = true
    · by_cases hp : p a = true
      · rw [List.filter_cons_of_pos hf, List.find?_cons_of_pos _ hp,
          List.find?_cons_of_pos _ hp]
      · rw [List.filter_cons_of_pos hf,
          List.find?_cons_of_neg _ (by simpa using hp),
          List.find?_cons_of_neg _ (by simpa using hp), ih]
    · have hp : ¬ p a = true := fun hpa => hf (h a hpa)
      rw [List.filter_cons_of_neg (by simpa using hf), ih,
        List.find?_cons_of_neg _ (by simpa using hp)]

theorem getEntry_clear_self (st : CacheStore) (p : String) (m : Nat) :
    getEntry (clearPresentationCache st p) p m = none := by
  apply List.find?_eq_none.mpr
  intro e he
  simp only [clearPresentationCache, List.mem_filter, Bool.not_eq_true',
    beq_eq_false_iff_ne, ne_eq] at he
  simp [keyMatch, he.2]

theorem getEntry_clear_ne (st : CacheStore) (p q : String) (m : Nat)
    (h : q ≠ p) :
    getEntry (clearPresentationCache st p) q m = getEntry st q m := by
  apply find?_filter_of_imp
  intro e hme
  simp only [keyMatch, Bool.and_eq_true, beq_iff_eq] at hme
  simp [hme.1, h]

/-! ### Claim theorems -/

/-- C5 counterexample.  The claim states that `evictOlderThan(T)` removes no
entry with `cachedAt ≥ now - T`; but the sweep deletes along the inclusive
`upperBound(now - T)` range, so an entry with `cachedAt` exactly `now - T`
(here `900` with `now = 1000`, `T = 100`) is removed although
`cachedAt ≥ now - T`. -/
theorem clearAllCache_boundary_counterexample :
    ({ presentationId := "p1", slideNumber := 1, imageUrl := "img",
       thumbnailUrl := none, imageBlob := [0], thumbnailBlob := none,
       cachedAt := 900 } : CachedSlide) ∈
      ([{ presentationId := "p1", slideNumber := 1, imageUrl := "img",
          thumbnailUrl := none, imageBlob := [0], thumbnailBlob := none,
          cachedAt := 900 }] : CacheStore)
    ∧ (1000 - 100 : Int) ≤ (900 : Int)
    ∧ ({ presentationId := "p1", slideNumber := 1, imageUrl := "img",
         thumbnailUrl := none, imageBlob := [0], thumbnailBlob := none,
         cachedAt := 900 } : CachedSlide) ∉
        clearAllCache
          [{ presentationId := "p1", slideNumber := 1, imageUrl := "img",
             thumbnailUrl := none, imageBlob := [0], thumbnailBlob := none,
             cachedAt := 900 }] 1000 100 := by
  refine ⟨by simp, by decide, ?_⟩
  simp [clearAllCache]

/-- C5 (amended): after `clearAllCache(maxAge)` with `cutoff = now - maxAge`,
every surviving entry has `cachedAt > cutoff`, every surviving entry was in
the store, and every entry with `cachedAt > cutoff` survives (so exactly the
entries with `cachedAt ≤ cutoff` are removed). -/
theorem clearAllCache_evicts_exactly_older (st : CacheStore) (now maxAge : Int) :
    (∀ e ∈ clearAllCache st now maxAge, now - maxAge < e.cachedAt)
    ∧ (∀ e ∈ clearAllCache st now maxAge, e ∈ st)
    ∧ ∀ e ∈ st, now - maxAge < e.cachedAt → e ∈ clearAllCache st now maxAge := by
  refine ⟨?_, ?_, ?_⟩
  · intro e he
    simp only [clearAllCache, List.mem_filter, Bool.not_eq_true',
      decide_eq_false_iff_not, not_le] at he
    exact he.2
  · intro e he
    exact (List.mem_filter.mp he).1
  · intro e he hlt
    simp only [clearAllCache, List.mem_filter, Bool.not_eq_true',
      decide_eq_false_iff_not, not_le]
    exact ⟨he, hlt⟩

/-- C5 witness: a one-entry store whose entry has `cachedAt = 901 > 900 =
now - maxAge` keeps that entry through the sweep. -/
theorem clearAllCache_evicts_exactly_older_witness :
    ({ presentationId := "p1", slideNumber := 1, imageUrl := "img",
       thumbnailUrl := none, imageBlob := [0], thumbnailBlob := none,
       cachedAt := 901 } : CachedSlide) ∈
      clearAllCache
        [{ presentationId := "p1", slideNumber := 1, imageUrl := "img",
           thumbnailUrl := none, imageBlob := [0], thumbnailBlob := none,
           cachedAt := 901 }] 1000 100 :=
  (clearAllCache_evicts_exactly_older
      [{ presentationId := "p1", slideNumber := 1, imageUrl := "img",
         thumbnailUrl := none, imageBlob := [0], thumbnailBlob := none,
         cachedAt := 901 }] 1000 100).2.2
    _ (by simp) (by decide)

/-- C6: `getCachedSlide` with `preferThumbnail` set returns the thumbnail
blob exactly when one was cached (else the full image blob), the full image
blob when `preferThumbnail` is unset, and `none` when no entry exists for
the key. -/
theorem getCachedSlide_prefer_thumbnail (st : CacheStore) (p : String) (n : Nat) :
    (getEntry st p n = none →
      getCachedSlide st p n true = none ∧ getCachedSlide st p n false = none)
    ∧ ∀ e, getEntry st p n = some e →
        getCachedSlide st p n true = some (e.thumbnailBlob.getD e.imageBlob)
        ∧ getCachedSlide st p n false = some e.imageBlob := by
  constructor
  · intro h
    simp [getCachedSlide, h]
  · intro e h
    cases ht : e.thumbnailBlob <;> simp [getCachedSlide, h, ht]

/-- C6 witness: on the empty store `get` is absent; on a store holding an
entry with thumbnail blob `[7]`, `get` with `preferThumbnail` returns `[7]`. -/
theorem getCachedSlide_prefer_thumbnail_witness :
    getCachedSlide [] "p1" 3 true = none
    ∧ getCachedSlide
        [{ presentationId := "p1", slideNumber := 3, imageUrl := "img",
           thumbnailUrl := some "th", imageBlob := [1, 2],
           thumbnailBlob := some [7], cachedAt := 0 }] "p1" 3 true = some [7] := by
  refine ⟨((getCachedSlide_prefer_thumbnail [] "p1" 3).1 rfl).1, ?_⟩
  have h := ((getCachedSlide_prefer_thumbnail
      [{ presentationId := "p1", slideNumber := 3, imageUrl := "img",
         thumbnailUrl := some "th", imageBlob := [1, 2],
         thumbnailBlob := some [7], cachedAt := 0 }] "p1" 3).2
    { presentationId := "p1", slideNumber := 3, imageUrl := "img",
      thumbnailUrl := some "th", imageBlob := [1, 2],
      thumbnailBlob := some [7], cachedAt := 0 } (by rfl)).1
  simpa using h

/-- C7: in every execution of `cacheSlide` the network fetch step precedes
every transaction-open step in the trace; and when the image fetch fails
(`fetchImage = none`) the call completes as a soft failure without throwing:
the store is unchanged, the success flag is false, and no transaction is
opened and no entry written. -/
theorem cacheSlide_fetch_before_txn_soft_fail (st : CacheStore) (p : String)
    (n : Nat) (iu : String) (tu : Option String) (ft : Option Blob) (now : Int) :
    (∀ fi, ∃ i : Nat,
        ((cacheSlide st p n iu tu fi ft now).2.2).get? i = some CacheOp.fetchBytes
        ∧ ∀ j : Nat,
            ((cacheSlide st p n iu tu fi ft now).2.2).get? j = some CacheOp.openTxn →
            i < j)
    ∧ (cacheSlide st p n iu tu none ft now).1 = st
    ∧ (cacheSlide st p n iu tu none ft now).2.1 = false
    ∧ CacheOp.openTxn ∉ (cacheSlide st p n iu tu none ft now).2.2
    ∧ CacheOp.writeEntry ∉ (cacheSlide st p n iu tu none ft now).2.2 := by
  refine ⟨?_, rfl, rfl, by simp [cacheSlide], by simp [cacheSlide]⟩
  intro fi
  refine ⟨0, ?_, ?_⟩
  · cases fi <;> rfl
  · intro j hj
    cases fi with
    | none =>
      cases j with
      | zero => simp [cacheSlide] at hj
      | succ j => cases j <;> simp [cacheSlide] at hj
    | some img =>
      cases j with
      | zero => simp [cacheSlide] at hj
      | succ j => omega

/-- C7 witness: a concrete failed-fetch `cacheSlide` call leaves the store
unchanged and reports failure. -/
theorem cacheSlide_fetch_before_txn_soft_fail_witness :
    (cacheSlide [] "p1" 3 "img" none none none 0).1 = []
    ∧ (cacheSlide [] "p1" 3 "img" none none none 0).2.1 = false :=
  ⟨(cacheSlide_fetch_before_txn_soft_fail [] "p1" 3 "img" none none 0).2.1,
   (cacheSlide_fetch_before_txn_soft_fail [] "p1" 3 "img" none none 0).2.2.1⟩

/-- C8: a successful `cacheSlide(p, n, ...)` followed by
`getCachedSlide(p, n, false)` returns the bytes that were put; after
`clearPresentationCache(p)` every lookup under `p` is absent, while lookups
under any other presentation are unchanged. -/
theorem cacheSlide_roundtrip_and_clear (st : CacheStore) (p : String) (n : Nat)
    (iu : String) (tu : Option String) (img : Blob) (ft : Option Blob) (now : Int) :
    getCachedSlide (cacheSlide st p n iu tu (some img) ft now).1 p n false = some img
    ∧ (∀ m pref, getCachedSlide (clearPresentationCache st p) p m pref = none)
    ∧ ∀ q m pref, q ≠ p →
        getCachedSlide (clearPresentationCache st p) q m pref
          = getCachedSlide st q m pref := by
  refine ⟨?_, ?_, ?_⟩
  · have h := keyMatch_self st
      { presentationId := p
        slideNumber := n
        imageUrl := iu
        thumbnailUrl := tu
        imageBlob := img
        thumbnailBlob := match tu with
          | some _ => ft
          | none => none
        cachedAt := now }
    simp only [cacheSlide]
    simp [getCachedSlide, h]
  · intro m pref
    simp [getCachedSlide, getEntry_clear_self]
  · intro q m pref hq
    simp [getCachedSlide, getEntry_clear_ne st p q m hq]

/-- C8 witness: put bytes `[9]` for `("p1", 3)` and read them back; after
clearing `"p1"` the lookup is absent, while an entry of presentation `"p2"`
survives the clear unchanged. -/
theorem cacheSlide_roundtrip_and_clear_witness :
    getCachedSlide (cacheSlide [] "p1" 3 "img" none (some [9]) none 0).1 "p1" 3 false
      = some [9]
    ∧ getCachedSlide (clearPresentationCache
        [{ presentationId := "p2", slideNumber := 1, imageUrl := "u",
           thumbnailUrl := none, imageBlob := [4], thumbnailBlob := none,
           cachedAt := 0 }] "p1") "p2" 1 false
      = getCachedSlide
          [{ presentationId := "p2", slideNumber := 1, imageUrl := "u",
             thumbnailUrl := none, imageBlob := [4], thumbnailBlob := none,
             cachedAt := 0 }] "p2" 1 false :=
  ⟨(cacheSlide_roundtrip_and_clear [] "p1" 3 "img" none [9] none 0).1,
   (cacheSlide_roundtrip_and_clear
      [{ presentationId := "p2", slideNumber := 1, imageUrl := "u",
         thumbnailUrl := none, imageBlob := [4], thumbnailBlob := none,
         cachedAt := 0 }] "p1" 3 "img" none [9] none 0).2.2
     "p2" 1 false (by decide)⟩

/-- C10: when the full-image fetch succeeds but the thumbnail fetch fails,
`cacheSlide` still writes an entry for the key with `thumbnailBlob = null`,
and a later `getCachedSlide` with `preferThumbnail` set returns the full
image bytes rather than absent. -/
theorem cacheSlide_thumbnail_failure_keeps_image (st : CacheStore) (p : String)
    (n : Nat) (iu tu : String) (img : Blob) (now : Int) :
    (∃ e, getEntry (cacheSlide st p n iu (some tu) (some img) none now).1 p n = some e
        ∧ e.thumbnailBlob = none ∧ e.imageBlob = img)
    ∧ getCachedSlide (cacheSlide st p n iu (some tu) (some img) none now).1 p n true
        = some img := by
  have h := keyMatch_self st
    { presentationId := p
      slideNumber := n
      imageUrl := iu
      thumbnailUrl := some tu
      imageBlob := img
      thumbnailBlob := none
      cachedAt := now }
  constructor
  · exact ⟨_, h, rfl, rfl⟩
  · simp only [cacheSlide]
    simp [getCachedSlide, h]

/-- C9: on regaining foreground visibility the handler performs exactly one
out-of-band refetch of `{current_slide_index, is_live}` — whatever the current
connection state and whether or not the fetch succeeds — and the connection
state machine's current state is left unchanged by it. -/
theorem visibility_refetch_preserves_status (v : ViewerState)
    (fetched : Option Snapshot) :
    (handleVisibilityChange v true fetched).2 = 1
    ∧ (handleVisibilityChange v true fetched).1.connectionStatus
        = v.connectionStatus := by
  cases fetched <;> simp [handleVisibilityChange]

/-! ### Connection manager lemmas -/

theorem runConn_cons (s : ConnState) (e : ConnEvent) (es : List ConnEvent) :
    runConn s (e :: es)
      = ((runConn (connStep s e).1 es).1,
         (connStep s e).2.toList ++ (runConn (connStep s e).1 es).2) := rfl

theorem runConn_append (s : ConnState) (l1 l2 : List ConnEvent) :
    runConn s (l1 ++ l2)
      = ((runConn (runConn s l1).1 l2).1,
         (runConn s l1).2 ++ (runConn (runConn s l1).1 l2).2) := by
  induction l1 generalizing s with
  | nil => simp [runConn]
  | cons e es ih => simp [runConn, ih, List.append_assoc]

theorem runConn_failures_saturated (k : Nat) :
    ∀ (st : ConnStatus) (a : Nat) (wd pu : Bool), 3 ≤ a →
    runConn ⟨st, a, true, wd, pu⟩ (List.replicate (k + 1) .channelFailure)
      = (⟨.disconnected, a + (k + 1), true, wd, false⟩, []) := by
  induction k with
  | zero =>
    intro st a wd pu hatt
    have hstep : connStep ⟨st, a, true, wd, pu⟩ .channelFailure
        = (⟨.disconnected, a + 1, true, wd, false⟩, none) := by
      simp only [connStep, startPolling]
      rw [if_pos (by omega)]
      rfl
    simp [runConn, hstep]
  | succ k ih =>
    intro st a wd pu hatt
    have hstep : connStep ⟨st, a, true, wd, pu⟩ .channelFailure
        = (⟨.disconnected, a + 1, true, wd, false⟩, none) := by
      simp only [connStep, startPolling]
      rw [if_pos (by omega)]
      rfl
    rw [List.replicate_succ, runConn_cons, hstep]
    dsimp only
    rw [ih .disconnected (a + 1) wd false (by omega)]
    have harith : a + 1 + (k + 1) = a + (k + 1 + 1) := by omega
    rw [harith]
    rfl

/-- C2: running `m` consecutive push-channel failures from the freshly
subscribed state, the scheduled reconnect delays are exactly
`min(500 * 2^i, 2000)` for `i = 0, ..., min(m,2) - 1` (so `500, 1000`):
consecutive delays are non-decreasing and start at `500`; polling is active
exactly once `m ≥ 3` failures have occurred (and stays active for every
larger `m`); the third failure itself moves the status to `polling`. -/
theorem backoff_monotone_poll_after_three (m : Nat) :
    (runConn initConnState (List.replicate m .channelFailure)).2
      = (List.range (min m 2)).map (fun i => min (500 * 2 ^ i) 2000)
    ∧ List.Chain' (fun x y => x ≤ y)
        (runConn initConnState (List.replicate m .channelFailure)).2
    ∧ (runConn initConnState (List.replicate m .channelFailure)).2.head?
        = (if m = 0 then none else some 500)
    ∧ (runConn initConnState (List.replicate m .channelFailure)).1.pollingActive
        = decide (3 ≤ m)
    ∧ (runConn initConnState (List.replicate m .channelFailure)).1.status
        = (if m = 0 then .connecting else if m = 3 then .polling
           else .disconnected) := by
  match m with
  | 0 =>
    refine ⟨by decide, ?_, by decide, by decide, by decide⟩
    have h : (runConn initConnState (List.replicate 0 .channelFailure)).2 = [] := rfl
    rw [h]
    exact List.chain'_nil
  | 1 =>
    refine ⟨by decide, ?_, by decide, by decide, by decide⟩
    have h : (runConn initConnState (List.replicate 1 .channelFailure)).2
        = [500] := by decide
    rw [h]
    exact List.chain'_singleton 500
  | 2 =>
    refine ⟨by decide, ?_, by decide, by decide, by decide⟩
    have h : (runConn initConnState (List.replicate 2 .channelFailure)).2
        = [500, 1000] := by decide
    rw [h]
    exact List.chain'_cons.mpr ⟨by omega, List.chain'_singleton 1000⟩
  | 3 =>
    refine ⟨by decide, ?_, by decide, by decide, by decide⟩
    have h : (runConn initConnState (List.replicate 3 .channelFailure)).2
        = [500, 1000] := by decide
    rw [h]
    exact List.chain'_cons.mpr ⟨by omega, List.chain'_singleton 1000⟩
  | (k + 4) =>
    have h34 : k + 4 = 3 + (k + 1) := by omega
    have hsplit : List.replicate (k + 4) ConnEvent.channelFailure
        = List.replicate 3 ConnEvent.channelFailure
          ++ List.replicate (k + 1) ConnEvent.channelFailure := by
      rw [h34, List.replicate_add]
    have h3 : runConn initConnState (List.replicate 3 .channelFailure)
        = (⟨.polling, 3, true, true, false⟩, [500, 1000]) := by decide
    have htail := runConn_failures_saturated k .polling 3 true false (Nat.le_refl 3)
    have hrun : runConn initConnState (List.replicate (k + 4) .channelFailure)
        = (⟨.disconnected, 3 + (k + 1), true, true, false⟩, [500, 1000]) := by
      rw [hsplit, runConn_append, h3]
      dsimp only
      rw [htail]
      rfl
    rw [hrun]
    have hmin : min (k + 4) 2 = 2 := by omega
    refine ⟨?_, ?_, ?_, ?_, ?_⟩
    · rw [hmin]
      rfl
    · exact List.chain'_cons.mpr ⟨by omega, List.chain'_singleton 1000⟩
    · rw [if_neg (by omega)]
      rfl
    · exact (decide_eq_true (by omega)).symm
    · rw [if_neg (by omega), if_neg (by omega)]

/-- C3: if the push channel has not confirmed by the time the 5-second
watchdog fires (status still `connecting`, watchdog pending, no polling yet),
the connection state transitions to `polling` with the 1-second polling loop
active; the loop polls at `start + 1000·k` for `k = 0, 1, ...` (immediate
first poll, then every second), so for any remote change at time `u ≥ start`
some poll tick lands within `[u, u + 1000]`; and a poll tick that fetches a
snapshot stores its slide index, so the change is observed at that tick. -/
theorem watchdog_polling_bounded_staleness (s : ConnState)
    (h1 : s.status = .connecting) (h2 : s.watchdogPending = true)
    (h3 : s.pollingActive = false) :
    (connStep s .watchdogFire).1.status = .polling
    ∧ (connStep s .watchdogFire).1.pollingActive = true
    ∧ (∀ start u : Nat, start ≤ u →
        ∃ k, u ≤ pollTickTime start k ∧ pollTickTime start k ≤ u + 1000)
    ∧ ∀ (v : ViewerState) (d : Snapshot),
        (applyPoll v (some d)).currentSlideIndex = d.current_slide_index := by
  obtain ⟨st, a, pol, wd, pu⟩ := s
  have hwd : wd = true := h2
  have hpol : pol = false := h3
  subst hwd
  subst hpol
  refine ⟨by simp [connStep, startPolling], by simp [connStep, startPolling], ?_, ?_⟩
  · intro start u h
    refine ⟨(u - start) / 1000 + 1, ?_, ?_⟩
    · simp only [pollTickTime]
      omega
    · simp only [pollTickTime]
      omega
  · intro v d
    rfl

/-- C3 witness: from the initial connecting state the watchdog firing yields
status `polling`, and for a poll loop started at 5000 ms a remote change at
6234 ms is covered by a tick no later than 7234 ms. -/
theorem watchdog_polling_bounded_staleness_witness :
    (connStep initConnState .watchdogFire).1.status = .polling
    ∧ ∃ k, 6234 ≤ pollTickTime 5000 k ∧ pollTickTime 5000 k ≤ 6234 + 1000 :=
  ⟨(watchdog_polling_bounded_staleness initConnState rfl rfl rfl).1,
   (watchdog_polling_bounded_staleness initConnState rfl rfl rfl).2.2.1
     5000 6234 (by omega)⟩

/-- The inductive invariant behind C4: push and poll are never simultaneously
active, and while push is active the watchdog (whose firing starts polling)
is no longer pending. -/
def connMutexInv (s : ConnState) : Prop :=
  (s.pushActive && s.pollingActive) = false
  ∧ (s.pushActive = true → s.watchdogPending = false)

theorem connStep_preserves_mutexInv (s : ConnState) (e : ConnEvent)
    (h : connMutexInv s) : connMutexInv (connStep s e).1 := by
  obtain ⟨st, a, pol, wd, pu⟩ := s
  obtain ⟨h1, h2⟩ := h
  cases e with
  | subscribed => exact ⟨by simp [connStep, stopPolling], fun _ => rfl⟩
  | channelFailure =>
    simp only [connStep, startPolling]
    by_cases h3 : a + 1 ≥ 3
    · rw [if_pos h3]
      by_cases hpol : pol = true
      · subst hpol; exact ⟨by simp, by simp⟩
      · simp only [Bool.not_eq_true] at hpol
        subst hpol
        exact ⟨by simp, by simp⟩
    · rw [if_neg h3]
      exact ⟨by simp, by simp⟩
  | watchdogFire =>
    simp only [connStep, startPolling]
    by_cases hwd : wd = true
    · rw [if_pos hwd]
      have hpu : pu = false := by
        cases hp : pu
        · rfl
        · exact absurd (h2 (by simpa using hp)) (by simp [hwd])
      subst hpu
      by_cases hpol : pol = true
      · subst hpol; exact ⟨by simp, by simp⟩
      · simp only [Bool.not_eq_true] at hpol
        subst hpol
        exact ⟨by simp, by simp⟩
    · rw [if_neg hwd]
      exact ⟨h1, h2⟩
  | reconnectFire => exact ⟨h1, h2⟩
  | pollTick => exact ⟨h1, h2⟩

theorem runConn_preserves_mutexInv (events : List ConnEvent) :
    ∀ s : ConnState, connMutexInv s → connMutexInv (runConn s events).1 := by
  induction events with
  | nil => intro s h; exact h
  | cons e es ih =>
    intro s h
    exact ih (connStep s e).1 (connStep_preserves_mutexInv s e h)

/-- C4: in every state of the connection manager reachable from the initial
subscribe (by any sequence of channel confirmations, channel failures,
watchdog fires, backoff-timer fires and poll ticks), push delivery and the
polling loop are never both active: starting one stops, or is prevented by,
the other. -/
theorem push_poll_mutual_exclusion (events : List ConnEvent) :
    ((runConn initConnState events).1.pushActive
      && (runConn initConnState events).1.pollingActive) = false :=
  (runConn_preserves_mutexInv events initConnState
    ⟨rfl, fun h => by simp [initConnState] at h⟩).1

/-! ### Preload-window lemmas -/

theorem findIdx?_range'_eq (P : Nat) : ∀ (n a : Nat),
    (List.range' a n).findIdx? (fun s => s == P) 0
      = if a ≤ P ∧ P < a + n then some (P - a) else none := by
  intro n
  induction n with
  | zero =>
    intro a
    rw [if_neg (by omega)]
    rfl
  | succ n ih =>
    intro a
    rw [List.range'_succ]
    simp only [List.findIdx?_cons]
    by_cases hP : a = P
    · subst hP
      rw [if_pos (by simp), if_pos (by omega)]
      simp
    · have hb : (a == P) = false := by simp [hP]
      rw [hb]
      simp only [Bool.false_eq_true, if_false]
      rw [List.findIdx?_succ, ih (a + 1)]
      by_cases hc : a + 1 ≤ P ∧ P < a + 1 + n
      · rw [if_pos hc, if_pos (by omega)]
        have hsub : P - (a + 1) + 1 = P - a := by omega
        simp [hsub]
      · rw [if_neg hc, if_neg (by omega)]
        rfl

theorem findSlideIdx_range' (n P : Nat) (h1 : 1 ≤ P) (h2 : P ≤ n) :
    findSlideIdx (List.range' 1 n) P = ((P - 1 : Nat) : Int) := by
  simp only [findSlideIdx, findIdx?_range'_eq]
  rw [if_pos (by omega)]

theorem filterMap_congr_some {α β : Type} (l : List α) (f : α → Option β)
    (g : α → β) (h : ∀ x ∈ l, f x = some (g x)) :
    l.filterMap f = l.map g := by
  induction l with
  | nil => rfl
  | cons a t ih =>
    rw [List.filterMap_cons, h a (by simp), List.map_cons,
      ih (fun x hx => h x (by simp [hx]))]

theorem priorityWindow_aux (N n P : Nat) (h1 : 1 ≤ P) (h2 : P ≤ n) :
    (priorityIndices (List.range' 1 n).length (findSlideIdx (List.range' 1 n) P)
        N).filterMap (fun i => (List.range' 1 n).get? i.toNat)
      = List.range' (max 1 (P - N)) (min n (P + N) + 1 - max 1 (P - N)) := by
  rw [List.length_range', findSlideIdx_range' n P h1 h2]
  simp only [priorityIndices, intRange]
  rw [List.filterMap_map]
  have hcnt : ((min ((n : Int) - 1) (((P - 1 : Nat) : Int) + (N : Int)) + 1
        - max 0 (((P - 1 : Nat) : Int) - (N : Int))).toNat)
      = min n (P + N) + 1 - max 1 (P - N) := by omega
  have hlo : (max 0 (((P - 1 : Nat) : Int) - (N : Int)))
      = (((max 1 (P - N) - 1 : Nat)) : Int) := by omega
  rw [hcnt, hlo]
  rw [filterMap_congr_some _ _ (fun k => max 1 (P - N) + k) ?_]
  · rw [List.range'_eq_map_range]
  · intro k hk
    have hk' : k < min n (P + N) + 1 - max 1 (P - N) := List.mem_range.mp hk
    simp only [Function.comp]
    have htn : ((((max 1 (P - N) - 1 : Nat)) : Int) + Int.ofNat k).toNat
        = max 1 (P - N) - 1 + k := by
      rw [Int.ofNat_eq_natCast]
      omega
    rw [htn, List.get?_eq_getElem?,
      List.getElem?_range' 1 1 (show max 1 (P - N) - 1 + k < n by omega)]
    congr 1
    omega

/-- C1: on the canonical manifest of slides numbered `1 .. n`, for any current
position `P` in `[1, n]` the priority window's slide numbers are exactly the
contiguous interval `[max(1, P - N), min(n, P + N)]` with
`N = lazyLoadRange(quality)`; and `N` is `5` for `fast`, `2` for `slow`,
`3` for `unknown` — so for `fast` the window is exactly
`[max(1, P - 5), min(last, P + 5)]`. -/
theorem priority_window_exact (q : ConnectionQuality) (n P : Nat)
    (h1 : 1 ≤ P) (h2 : P ≤ n) :
    priorityWindow (List.range' 1 n) P q
      = List.range' (max 1 (P - lazyLoadRange q))
          (min n (P + lazyLoadRange q) + 1 - max 1 (P - lazyLoadRange q))
    ∧ lazyLoadRange .fast = 5 ∧ lazyLoadRange .slow = 2
    ∧ lazyLoadRange .unknown = 3 := by
  refine ⟨?_, rfl, rfl, rfl⟩
  show (priorityIndices (List.range' 1 n).length (findSlideIdx (List.range' 1 n) P)
      (lazyLoadRange q)).filterMap (fun i => (List.range' 1 n).get? i.toNat) = _
  exact priorityWindow_aux (lazyLoadRange q) n P h1 h2

/-- C1 witness: a 20-slide manifest at position 1 with `fast` quality yields
the window `[1, 6]` (slides 1..6), matching `[max(1, 1-5), min(20, 1+5)]`. -/
theorem priority_window_exact_witness :
    priorityWindow (List.range' 1 20) 1 .fast
      = List.range' (max 1 (1 - lazyLoadRange .fast))
          (min 20 (1 + lazyLoadRange .fast) + 1 - max 1 (1 - lazyLoadRange .fast))
    ∧ lazyLoadRange .fast = 5 ∧ lazyLoadRange .slow = 2
    ∧ lazyLoadRange .unknown = 3 :=
  priority_window_exact .fast 20 1 (by omega) (by omega)

end SlideViewer

